import Mathlib

/-!
Shallow embedding of `src/desktop/remote_desktop.rs` from the `ashpd`
repository: the remote-desktop portal client (enumerations, option
records with dict serialization, and the `RemoteDesktopProxy` operations)
together with proofs about it.

Collaborator types that live outside this source file (`HandleToken`,
`WindowIdentifier`, `SessionProxy`, `RequestProxy`, `Error`, and the
request/response correlator) are modelled from the spec, each marked in
its doc comment.
-/

namespace RemoteDesktop

/-- Modelled from the spec: the error taxonomy of section 7.  The `Error`
enum itself is declared outside this source file; the spec names four
classes: transport failure, broker non-success status, payload decode
mismatch, and caller-detectable misuse. -/
inductive Error where
  | TransportError
  | BrokerError (status : Nat)
  | ProtocolError
  | StateError
  deriving DecidableEq, Repr

/-- Modelled from the spec: a `HandleToken` is an opaque unique string
naming a pending operation or a session-to-be. -/
structure HandleToken where
  val : String
  deriving DecidableEq, Repr

/-- Modelled from the spec: window-identifier formatting is out of scope;
it is treated as an opaque string (may be empty = "no parent window"). -/
structure WindowIdentifier where
  val : String
  deriving DecidableEq, Repr

/-- Modelled from the spec: a `SessionProxy` is a handle bound to the
session's stable path-like identifier returned by the broker. -/
structure SessionProxy where
  path : String
  deriving DecidableEq, Repr

/-- Modelled from the spec: a `RequestProxy` (PendingRequest) is
identified by the response-object path returned synchronously by the
initiating call. -/
structure RequestProxy where
  path : String
  deriving DecidableEq, Repr

/-- An IEEE double carried on the wire; the code passes doubles through
uninterpreted, so we carry the raw bit pattern. -/
structure Double where
  bits : Nat
  deriving DecidableEq, Repr

/-- `KeyState` from the source: `#[repr(u32)]`, `Pressed = 0`,
`Released = 1`. -/
inductive KeyState where
  | Pressed
  | Released
  deriving DecidableEq, Repr

/-- The `Serialize_repr` encoding of `KeyState`. -/
def KeyState.repr32 : KeyState → Nat
  | .Pressed => 0
  | .Released => 1

/-- `DeviceType` from the source: `#[repr(u32)]` bit flags,
`Keyboard = 1`, `Pointer = 2`, `Touchscreen = 4`. -/
inductive DeviceType where
  | Keyboard
  | Pointer
  | Touchscreen
  deriving DecidableEq, Repr

/-- The `Serialize_repr` encoding of `DeviceType`. -/
def DeviceType.repr32 : DeviceType → Nat
  | .Keyboard => 1
  | .Pointer => 2
  | .Touchscreen => 4

/-- `Axis` from the source: `#[repr(u32)]`, `Vertical = 0`,
`Horizontal = 1`. -/
inductive Axis where
  | Vertical
  | Horizontal
  deriving DecidableEq, Repr

/-- The `Serialize_repr` encoding of `Axis`. -/
def Axis.repr32 : Axis → Nat
  | .Vertical => 0
  | .Horizontal => 1

/-- `BitFlags<DeviceType>` from `enumflags2`: a set over the three flag
bits, stored as one membership Boolean per flag. -/
structure DeviceTypeFlags where
  keyboard : Bool
  pointer : Bool
  touchscreen : Bool
  deriving DecidableEq, Repr

namespace DeviceTypeFlags

/-- The `u32` bit pattern of a flag set (`BitFlags::bits`). -/
def bits (f : DeviceTypeFlags) : Nat :=
  (cond f.keyboard 1 0) ||| (cond f.pointer 2 0) ||| (cond f.touchscreen 4 0)

/-- `DeviceType::ALL` as a mask: `1 | 2 | 4 = 7`. -/
def allMask : Nat := 7

/-- `BitFlags::from_bits` from `enumflags2`: succeeds exactly when no bit
outside the flag universe is set (`bits & !ALL == 0` over `u32`), and
then keeps every universe bit as given. -/
def fromBits (n : Nat) : Option DeviceTypeFlags :=
  if n &&& (4294967295 ^^^ allMask) = 0 then
    some ⟨n.testBit 0, n.testBit 1, n.testBit 2⟩
  else
    none

/-- Membership of one device type in a flag set. -/
def contains (f : DeviceTypeFlags) : DeviceType → Bool
  | .Keyboard => f.keyboard
  | .Pointer => f.pointer
  | .Touchscreen => f.touchscreen

/-- `DeviceType::Keyboard | DeviceType::Pointer` and friends: flag union. -/
def union (f g : DeviceTypeFlags) : DeviceTypeFlags :=
  ⟨f.keyboard || g.keyboard, f.pointer || g.pointer,
    f.touchscreen || g.touchscreen⟩

/-- A single device type as a one-element flag set. -/
def ofDevice : DeviceType → DeviceTypeFlags
  | .Keyboard => ⟨true, false, false⟩
  | .Pointer => ⟨false, true, false⟩
  | .Touchscreen => ⟨false, false, true⟩

end DeviceTypeFlags

/-- A value on the D-Bus wire, at the granularity the claims need. -/
inductive WireValue where
  | u32 (n : Nat)
  | i32 (n : Int)
  | f64 (d : Double)
  | str (s : String)
  | objPath (p : String)
  | dict (d : List (String × WireValue))

/-- A serialized dictionary payload (string keys). -/
abbrev Dict := List (String × WireValue)

/-- Decoding a `u32` dict entry: the value must be a `u32` wire value in
range. -/
def decodeU32 : WireValue → Option Nat
  | .u32 n => if n < 4294967296 then some n else none
  | _ => none

/-- Decoding an object-path dict entry. -/
def decodeObjPathValue : WireValue → Option String
  | .objPath p => some p
  | _ => none

/-- Decoding a string dict entry. -/
def decodeStrValue : WireValue → Option String
  | .str s => some s
  | _ => none

/-- Decoding a `BitFlags<DeviceType>` dict entry: a `u32` wire value fed
through `BitFlags::from_bits`. -/
def decodeDeviceTypeFlags (v : WireValue) : Option DeviceTypeFlags :=
  (decodeU32 v).bind DeviceTypeFlags.fromBits

/-- `CreateRemoteOptions` from the source: two optional fields, both
absent in `Default::default()`. -/
structure CreateRemoteOptions where
  handle_token : Option HandleToken := none
  session_handle_token : Option HandleToken := none
  deriving DecidableEq, Repr

namespace CreateRemoteOptions

/-- `Default::default()` for `CreateRemoteOptions`. -/
def default : CreateRemoteOptions := {}

/-- The builder setter `CreateRemoteOptions::handle_token`. -/
def set_handle_token (o : CreateRemoteOptions) (t : HandleToken) :
    CreateRemoteOptions :=
  { o with handle_token := some t }

/-- The builder setter `CreateRemoteOptions::session_handle_token`. -/
def set_session_handle_token (o : CreateRemoteOptions) (t : HandleToken) :
    CreateRemoteOptions :=
  { o with session_handle_token := some t }

/-- `SerializeDict` for `CreateRemoteOptions`: each `Option` field set to
`None` is omitted from the dictionary. -/
def serialize (o : CreateRemoteOptions) : Dict :=
  (match o.handle_token with
    | some t => [("handle_token", WireValue.str t.val)]
    | none => []) ++
  (match o.session_handle_token with
    | some t => [("session_handle_token", WireValue.str t.val)]
    | none => [])

end CreateRemoteOptions

/-- `SelectDevicesOptions` from the source: optional handle token and
optional device-type filter. -/
structure SelectDevicesOptions where
  handle_token : Option HandleToken := none
  types : Option DeviceTypeFlags := none
  deriving DecidableEq, Repr

namespace SelectDevicesOptions

/-- `Default::default()` for `SelectDevicesOptions`. -/
def default : SelectDevicesOptions := {}

/-- The builder setter `SelectDevicesOptions::handle_token`. -/
def set_handle_token (o : SelectDevicesOptions) (t : HandleToken) :
    SelectDevicesOptions :=
  { o with handle_token := some t }

/-- The builder setter `SelectDevicesOptions::types`. -/
def set_types (o : SelectDevicesOptions) (ts : DeviceTypeFlags) :
    SelectDevicesOptions :=
  { o with types := some ts }

/-- `SerializeDict` for `SelectDevicesOptions`: `None` fields are omitted;
the `types` field is serialized as the flag set's `u32` bit pattern. -/
def serialize (o : SelectDevicesOptions) : Dict :=
  (match o.handle_token with
    | some t => [("handle_token", WireValue.str t.val)]
    | none => []) ++
  (match o.types with
    | some ts => [("types", WireValue.u32 ts.bits)]
    | none => [])

/-- `DeserializeDict` for `SelectDevicesOptions`: each field is looked up
by name; a missing key gives `None`, a present key must decode. -/
def deserialize (d : Dict) : Option SelectDevicesOptions :=
  match d.lookup "handle_token" with
  | some v =>
    match decodeStrValue v with
    | some s =>
      match d.lookup "types" with
      | some tv =>
        (decodeDeviceTypeFlags tv).map fun ts =>
          { handle_token := some ⟨s⟩, types := some ts }
      | none => some { handle_token := some ⟨s⟩, types := none }
    | none => none
  | none =>
    match d.lookup "types" with
    | some tv =>
      (decodeDeviceTypeFlags tv).map fun ts =>
        { handle_token := none, types := some ts }
    | none => some { handle_token := none, types := none }

end SelectDevicesOptions

/-- `StartRemoteOptions` from the source: a single optional handle token. -/
structure StartRemoteOptions where
  handle_token : Option HandleToken := none
  deriving DecidableEq, Repr

namespace StartRemoteOptions

/-- `Default::default()` for `StartRemoteOptions`. -/
def default : StartRemoteOptions := {}

/-- The builder setter `StartRemoteOptions::handle_token`. -/
def set_handle_token (o : StartRemoteOptions) (t : HandleToken) :
    StartRemoteOptions :=
  { o with handle_token := some t }

/-- `SerializeDict` for `StartRemoteOptions`. -/
def serialize (o : StartRemoteOptions) : Dict :=
  match o.handle_token with
  | some t => [("handle_token", WireValue.str t.val)]
  | none => []

end StartRemoteOptions

/-- The response record `CreateSession` from the source: field
`session_handle : OwnedObjectPath`. -/
structure CreateSession where
  session_handle : String
  deriving DecidableEq, Repr

/-- `DeserializeDict` for `CreateSession`: the non-optional
`session_handle` field must be present and be an object path. -/
def CreateSession.deserialize (d : Dict) : Option CreateSession :=
  match d.lookup "session_handle" with
  | some v => (decodeObjPathValue v).map fun p => ⟨p⟩
  | none => none

/-- The response record `SelectedDevices` from the source: field
`devices : BitFlags<DeviceType>`. -/
structure SelectedDevices where
  devices : DeviceTypeFlags
  deriving DecidableEq, Repr

/-- `DeserializeDict` for `SelectedDevices`: the non-optional `devices`
field must be present and decode through `BitFlags::from_bits`. -/
def SelectedDevices.deserialize (d : Dict) : Option SelectedDevices :=
  match d.lookup "devices" with
  | some v => (decodeDeviceTypeFlags v).map fun f => ⟨f⟩
  | none => none

/-- The inner `zbus::azync::Proxy`: the destination/path/interface triple
fixed by `RemoteDesktopProxy::new`. -/
structure ZbusProxy where
  interface : String
  path : String
  destination : String
  deriving DecidableEq, Repr

/-- An observable transport action issued by a proxy operation. -/
inductive Event where
  | call (member : String) (args : List WireValue)
  | receive (path : String)
  | getProperty (name : String)

/-- Modelled from the spec: the external transport/broker boundary of
section 6 — a call-dispatch primitive returning a reply body, a
deliver-once response addressed to a response-object path carrying
`(status_code, payload)`, and a property-read primitive. -/
structure Env where
  call : ZbusProxy → String → List WireValue → Except Error (List WireValue)
  response : String → Except Error (Nat × Dict)
  property : ZbusProxy → String → Except Error WireValue

/-- The effect monad of a proxy operation: reading the broker environment,
failing with an `Error`, and recording the trace of transport actions. -/
def DBusM (α : Type) : Type :=
  Env → Except Error α × List Event

/-- `pure` for `DBusM`. -/
def DBusM.pureM {α : Type} (a : α) : DBusM α :=
  fun _ => (Except.ok a, [])

/-- `bind` for `DBusM`: the Rust `?` operator — stop at the first error,
concatenate the traces. -/
def DBusM.bindM {α β : Type} (m : DBusM α) (f : α → DBusM β) : DBusM β :=
  fun env =>
    match m env with
    | (Except.error e, t) => (Except.error e, t)
    | (Except.ok a, t) => ((f a env).1, t ++ (f a env).2)

instance : Monad DBusM where
  pure := DBusM.pureM
  bind := DBusM.bindM

/-- Lift a pure `Except` computation (a decode step) into `DBusM`. -/
def DBusM.lift {α : Type} (r : Except Error α) : DBusM α :=
  fun _ => (r, [])

/-- `zbus::azync::Proxy::call_method`: issue a method call on the inner
proxy and yield the reply body. -/
def callMethod (px : ZbusProxy) (member : String) (args : List WireValue) :
    DBusM (List WireValue) :=
  fun env => (env.call px member args, [Event.call member args])

/-- `.body::<OwnedObjectPath>()`: decode a reply body as a single object
path. -/
def bodyObjectPath : List WireValue → Except Error String
  | [WireValue.objPath p] => Except.ok p
  | _ => Except.error Error.ProtocolError

/-- `.body::<()>()`: decode an empty reply body. -/
def bodyUnit : List WireValue → Except Error Unit
  | [] => Except.ok ()
  | _ => Except.error Error.ProtocolError

/-- Modelled from the spec: `RequestProxy::new` binds a PendingRequest
handle to the response-object path returned by the initiating call. -/
def RequestProxy.new (path : String) : DBusM RequestProxy :=
  DBusM.pureM ⟨path⟩

/-- Modelled from the spec: `SessionProxy::new` binds a session handle to
the session's stable identifier. -/
def SessionProxy.new (path : String) : DBusM SessionProxy :=
  DBusM.pureM ⟨path⟩

/-- Modelled from the spec: `RequestProxy::receive_response::<T>` —
section 4.3.  Awaits the single response addressed to the request's
response-object path; a non-success status code surfaces as a broker
error, a payload that does not decode as `T` surfaces as a protocol
error. -/
def RequestProxy.receive_response {α : Type} (decode : Dict → Option α)
    (req : RequestProxy) : DBusM α :=
  fun env =>
    match env.response req.path with
    | Except.error e => (Except.error e, [Event.receive req.path])
    | Except.ok (status, payload) =>
      if status == 0 then
        match decode payload with
        | some v => (Except.ok v, [Event.receive req.path])
        | none => (Except.error Error.ProtocolError, [Event.receive req.path])
      else
        (Except.error (Error.BrokerError status), [Event.receive req.path])

/-- `RemoteDesktopProxy` from the source: a newtype over the inner zbus
proxy; it has no other field. -/
structure RemoteDesktopProxy where
  inner : ZbusProxy
  deriving DecidableEq, Repr

namespace RemoteDesktopProxy

/-- `RemoteDesktopProxy::new`: builds the inner proxy on the portal
interface, object path and destination. -/
def new : RemoteDesktopProxy :=
  ⟨⟨"org.freedesktop.portal.RemoteDesktop", "/org/freedesktop/portal/desktop",
    "org.freedesktop.portal.Desktop"⟩⟩

/-- `RemoteDesktopProxy::create_session`: call `CreateSession` with the
options dict, decode the reply as the response-object path, await that
response for the `CreateSession` record, and bind a session handle to
its `session_handle`. -/
def create_session (p : RemoteDesktopProxy) (options : CreateRemoteOptions) :
    DBusM SessionProxy := do
  let body ← callMethod p.inner "CreateSession" [WireValue.dict options.serialize]
  let path ← DBusM.lift (bodyObjectPath body)
  let request ← RequestProxy.new path
  let session ← request.receive_response CreateSession.deserialize
  SessionProxy.new session.session_handle

/-- `RemoteDesktopProxy::select_devices`: call `SelectDevices` naming the
session and the options dict; wrap the synchronously returned
response-object path as a pending request, without awaiting it. -/
def select_devices (p : RemoteDesktopProxy) (session : SessionProxy)
    (options : SelectDevicesOptions) : DBusM RequestProxy := do
  let body ← callMethod p.inner "SelectDevices"
    [WireValue.objPath session.path, WireValue.dict options.serialize]
  let path ← DBusM.lift (bodyObjectPath body)
  RequestProxy.new path

/-- `RemoteDesktopProxy::start`: call `Start` naming the session, the
parent window and the options dict; wrap the synchronously returned
response-object path as a pending request, without awaiting it. -/
def start (p : RemoteDesktopProxy) (session : SessionProxy)
    (parent_window : WindowIdentifier) (options : StartRemoteOptions) :
    DBusM RequestProxy := do
  let body ← callMethod p.inner "Start"
    [WireValue.objPath session.path, WireValue.str parent_window.val,
      WireValue.dict options.serialize]
  let path ← DBusM.lift (bodyObjectPath body)
  RequestProxy.new path

/-- `RemoteDesktopProxy::notify_keyboard_keycode`. -/
def notify_keyboard_keycode (p : RemoteDesktopProxy) (session : SessionProxy)
    (options : Dict) (keycode : Int) (state : KeyState) : DBusM Unit := do
  let body ← callMethod p.inner "NotifyKeyboardKeycode"
    [WireValue.objPath session.path, WireValue.dict options,
      WireValue.i32 keycode, WireValue.u32 state.repr32]
  DBusM.lift (bodyUnit body)

/-- `RemoteDesktopProxy::notify_keyboard_keysym`. -/
def notify_keyboard_keysym (p : RemoteDesktopProxy) (session : SessionProxy)
    (options : Dict) (keysym : Int) (state : KeyState) : DBusM Unit := do
  let body ← callMethod p.inner "NotifyKeyboardKeysym"
    [WireValue.objPath session.path, WireValue.dict options,
      WireValue.i32 keysym, WireValue.u32 state.repr32]
  DBusM.lift (bodyUnit body)

/-- `RemoteDesktopProxy::notify_touch_up`. -/
def notify_touch_up (p : RemoteDesktopProxy) (session : SessionProxy)
    (options : Dict) (slot : Nat) : DBusM Unit := do
  let body ← callMethod p.inner "NotifyTouchUp"
    [WireValue.objPath session.path, WireValue.dict options, WireValue.u32 slot]
  DBusM.lift (bodyUnit body)

/-- `RemoteDesktopProxy::notify_touch_down`. -/
def notify_touch_down (p : RemoteDesktopProxy) (session : SessionProxy)
    (options : Dict) (stream : Nat) (slot : Nat) (x y : Double) :
    DBusM Unit := do
  let body ← callMethod p.inner "NotifyTouchDown"
    [WireValue.objPath session.path, WireValue.dict options,
      WireValue.u32 stream, WireValue.u32 slot, WireValue.f64 x, WireValue.f64 y]
  DBusM.lift (bodyUnit body)

/-- `RemoteDesktopProxy::notify_touch_motion`. -/
def notify_touch_motion (p : RemoteDesktopProxy) (session : SessionProxy)
    (options : Dict) (stream : Nat) (slot : Nat) (x y : Double) :
    DBusM Unit := do
  let body ← callMethod p.inner "NotifyTouchMotion"
    [WireValue.objPath session.path, WireValue.dict options,
      WireValue.u32 stream, WireValue.u32 slot, WireValue.f64 x, WireValue.f64 y]
  DBusM.lift (bodyUnit body)

/-- `RemoteDesktopProxy::notify_pointer_motion_absolute`: issued under
the member name `NotifyPointerMotionAbsolute`. -/
def notify_pointer_motion_absolute (p : RemoteDesktopProxy)
    (session : SessionProxy) (options : Dict) (stream : Nat) (x y : Double) :
    DBusM Unit := do
  let body ← callMethod p.inner "NotifyPointerMotionAbsolute"
    [WireValue.objPath session.path, WireValue.dict options,
      WireValue.u32 stream, WireValue.f64 x, WireValue.f64 y]
  DBusM.lift (bodyUnit body)

/-- `RemoteDesktopProxy::notify_pointer_motion`: the relative-motion
notification; the source issues it under the member name
`NotifyPointerMotionAbsolute`. -/
def notify_pointer_motion (p : RemoteDesktopProxy) (session : SessionProxy)
    (options : Dict) (dx dy : Double) : DBusM Unit := do
  let body ← callMethod p.inner "NotifyPointerMotionAbsolute"
    [WireValue.objPath session.path, WireValue.dict options,
      WireValue.f64 dx, WireValue.f64 dy]
  DBusM.lift (bodyUnit body)

/-- `RemoteDesktopProxy::notify_pointer_button`. -/
def notify_pointer_button (p : RemoteDesktopProxy) (session : SessionProxy)
    (options : Dict) (button : Int) (state : KeyState) : DBusM Unit := do
  let body ← callMethod p.inner "NotifyPointerButton"
    [WireValue.objPath session.path, WireValue.dict options,
      WireValue.i32 button, WireValue.u32 state.repr32]
  DBusM.lift (bodyUnit body)

/-- `RemoteDesktopProxy::notify_pointer_axis_discrete`. -/
def notify_pointer_axis_discrete (p : RemoteDesktopProxy)
    (session : SessionProxy) (options : Dict) (axis : Axis) (steps : Int) :
    DBusM Unit := do
  let body ← callMethod p.inner "NotifyPointerAxisDiscrete"
    [WireValue.objPath session.path, WireValue.dict options,
      WireValue.u32 axis.repr32, WireValue.i32 steps]
  DBusM.lift (bodyUnit body)

/-- `RemoteDesktopProxy::notify_pointer_axis`. -/
def notify_pointer_axis (p : RemoteDesktopProxy) (session : SessionProxy)
    (options : Dict) (dx dy : Double) : DBusM Unit := do
  let body ← callMethod p.inner "NotifyPointerAxis"
    [WireValue.objPath session.path, WireValue.dict options,
      WireValue.f64 dx, WireValue.f64 dy]
  DBusM.lift (bodyUnit body)

/-- `RemoteDesktopProxy::available_device_types`: a property read of
`AvailableDeviceTypes` decoded as a device-type flag set. -/
def available_device_types (p : RemoteDesktopProxy) : DBusM DeviceTypeFlags :=
  fun env =>
    match env.property p.inner "AvailableDeviceTypes" with
    | Except.error e => (Except.error e, [Event.getProperty "AvailableDeviceTypes"])
    | Except.ok v =>
      match decodeDeviceTypeFlags v with
      | some f => (Except.ok f, [Event.getProperty "AvailableDeviceTypes"])
      | none => (Except.error Error.ProtocolError, [Event.getProperty "AvailableDeviceTypes"])

/-- `RemoteDesktopProxy::version`: a property read of `version` decoded
as a `u32`. -/
def version (p : RemoteDesktopProxy) : DBusM Nat :=
  fun env =>
    match env.property p.inner "version" with
    | Except.error e => (Except.error e, [Event.getProperty "version"])
    | Except.ok v =>
      match decodeU32 v with
      | some n => (Except.ok n, [Event.getProperty "version"])
      | none => (Except.error Error.ProtocolError, [Event.getProperty "version"])

end RemoteDesktopProxy

/-- The member name of a `call` event, for reading traces. -/
def Event.member : Event → Option String
  | .call m _ => some m
  | _ => none

/-- The member names of the method calls issued in a trace, in order. -/
def callMembers (t : List Event) : List String :=
  t.filterMap Event.member

/-- Whether a trace awaits any response (the correlator half). -/
def receives (t : List Event) : Bool :=
  t.any fun e => match e with
    | .receive _ => true
    | _ => false

/-- A concrete session handle bound to `/session/s1`, for scenarios. -/
def sessionA : SessionProxy := ⟨"/session/s1"⟩

/-- The empty ("no parent window") window identifier. -/
def windowA : WindowIdentifier := ⟨""⟩

/-- A concrete broker: replies to the three correlated calls with fixed
response-object paths, acknowledges the create-session response with the
session id, and answers the start response with granted `{Pointer}`. -/
def envA : Env where
  call := fun _ member _ =>
    if member == "SelectDevices" then Except.ok [WireValue.objPath "/req/1"]
    else if member == "Start" then Except.ok [WireValue.objPath "/req/2"]
    else if member == "CreateSession" then Except.ok [WireValue.objPath "/req/0"]
    else Except.ok []
  response := fun path =>
    if path == "/req/0" then
      Except.ok (0, [("session_handle", WireValue.objPath "/session/s1")])
    else if path == "/req/2" then
      Except.ok (0, [("devices", WireValue.u32 2)])
    else Except.ok (0, [])
  property := fun _ _ => Except.error Error.TransportError

/-- A broker whose transport delivers nothing. -/
def envCallFail : Env where
  call := fun _ _ _ => Except.error Error.TransportError
  response := fun _ => Except.error Error.TransportError
  property := fun _ _ => Except.error Error.TransportError

/-- A broker that replies with a non-success status (user cancelled). -/
def envBrokerCancel : Env where
  call := fun _ _ _ => Except.ok [WireValue.objPath "/req/0"]
  response := fun _ => Except.ok (1, [])
  property := fun _ _ => Except.error Error.TransportError

/-- A broker whose response payload lacks the expected field. -/
def envBadPayload : Env where
  call := fun _ _ _ => Except.ok [WireValue.objPath "/req/0"]
  response := fun _ => Except.ok (0, [])
  property := fun _ _ => Except.error Error.TransportError

/-- A broker whose response delivery itself fails. -/
def envRespFail : Env where
  call := fun _ _ _ => Except.ok [WireValue.objPath "/req/0"]
  response := fun _ => Except.error Error.TransportError
  property := fun _ _ => Except.error Error.TransportError

/-- The spec scenario of section 8: start the session, await the granted
set, then stream one keyboard-keycode and one pointer-button event. -/
def scenarioGrantedPointer : DBusM (SelectedDevices × Unit × Unit) := do
  let req ← RemoteDesktopProxy.new.start sessionA windowA StartRemoteOptions.default
  let granted ← req.receive_response SelectedDevices.deserialize
  let k ← RemoteDesktopProxy.new.notify_keyboard_keycode sessionA [] 13 KeyState.Pressed
  let b ← RemoteDesktopProxy.new.notify_pointer_button sessionA [] 272 KeyState.Pressed
  pure (granted, k, b)

/-- One public operation of the proxy, with its arguments. -/
inductive ProxyCall where
  | createSession (options : CreateRemoteOptions)
  | selectDevices (session : SessionProxy) (options : SelectDevicesOptions)
  | startSession (session : SessionProxy) (window : WindowIdentifier)
      (options : StartRemoteOptions)
  | notifyKeyboardKeycode (session : SessionProxy) (options : Dict)
      (keycode : Int) (state : KeyState)
  | notifyKeyboardKeysym (session : SessionProxy) (options : Dict)
      (keysym : Int) (state : KeyState)
  | notifyTouchUp (session : SessionProxy) (options : Dict) (slot : Nat)
  | notifyTouchDown (session : SessionProxy) (options : Dict)
      (stream slot : Nat) (x y : Double)
  | notifyTouchMotion (session : SessionProxy) (options : Dict)
      (stream slot : Nat) (x y : Double)
  | notifyPointerMotionAbsolute (session : SessionProxy) (options : Dict)
      (stream : Nat) (x y : Double)
  | notifyPointerMotion (session : SessionProxy) (options : Dict) (dx dy : Double)
  | notifyPointerButton (session : SessionProxy) (options : Dict)
      (button : Int) (state : KeyState)
  | notifyPointerAxisDiscrete (session : SessionProxy) (options : Dict)
      (axis : Axis) (steps : Int)
  | notifyPointerAxis (session : SessionProxy) (options : Dict) (dx dy : Double)
  | availableDeviceTypes
  | versionCall

/-- The result of one public operation. -/
inductive CallResult where
  | session (s : SessionProxy)
  | request (r : RequestProxy)
  | unit
  | flags (f : DeviceTypeFlags)
  | num (n : Nat)

/-- Run one public operation on the proxy.  Every operation takes the
proxy by shared reference in the source and none returns an updated
proxy, so the dispatcher consumes `p` read-only. -/
def RemoteDesktopProxy.dispatch (p : RemoteDesktopProxy) :
    ProxyCall → DBusM CallResult
  | .createSession o => do
    let s ← p.create_session o
    pure (CallResult.session s)
  | .selectDevices s o => do
    let r ← p.select_devices s o
    pure (CallResult.request r)
  | .startSession s w o => do
    let r ← p.start s w o
    pure (CallResult.request r)
  | .notifyKeyboardKeycode s o k st => do
    let _ ← p.notify_keyboard_keycode s o k st
    pure CallResult.unit
  | .notifyKeyboardKeysym s o k st => do
    let _ ← p.notify_keyboard_keysym s o k st
    pure CallResult.unit
  | .notifyTouchUp s o slot => do
    let _ ← p.notify_touch_up s o slot
    pure CallResult.unit
  | .notifyTouchDown s o stream slot x y => do
    let _ ← p.notify_touch_down s o stream slot x y
    pure CallResult.unit
  | .notifyTouchMotion s o stream slot x y => do
    let _ ← p.notify_touch_motion s o stream slot x y
    pure CallResult.unit
  | .notifyPointerMotionAbsolute s o stream x y => do
    let _ ← p.notify_pointer_motion_absolute s o stream x y
    pure CallResult.unit
  | .notifyPointerMotion s o dx dy => do
    let _ ← p.notify_pointer_motion s o dx dy
    pure CallResult.unit
  | .notifyPointerButton s o b st => do
    let _ ← p.notify_pointer_button s o b st
    pure CallResult.unit
  | .notifyPointerAxisDiscrete s o a steps => do
    let _ ← p.notify_pointer_axis_discrete s o a steps
    pure CallResult.unit
  | .notifyPointerAxis s o dx dy => do
    let _ ← p.notify_pointer_axis s o dx dy
    pure CallResult.unit
  | .availableDeviceTypes => do
    let f ← p.available_device_types
    pure (CallResult.flags f)
  | .versionCall => do
    let n ← p.version
    pure (CallResult.num n)

/-! ## Proofs -/

/-- Running a bound computation: stop at the first error, concatenate
traces. -/
theorem DBusM.run_bind {α β : Type} (m : DBusM α) (f : α → DBusM β) (env : Env) :
    (m >>= f) env =
      match m env with
      | (Except.error e, t) => (Except.error e, t)
      | (Except.ok a, t) => ((f a env).1, t ++ (f a env).2) := rfl

/-- The `from_bits` validity mask is the `u32` complement of the flag
universe. -/
theorem mask_const : (4294967295 ^^^ DeviceTypeFlags.allMask : Nat) = 4294967288 := by
  decide

theorem eight_le_two_pow {i : Nat} (hi : 3 ≤ i) : (8 : Nat) ≤ 2 ^ i :=
  calc (8 : Nat) = 2 ^ 3 := by norm_num
    _ ≤ 2 ^ i := Nat.pow_le_pow_right (by norm_num) hi

theorem u32_le_two_pow {i : Nat} (hi : 32 ≤ i) : (4294967296 : Nat) ≤ 2 ^ i :=
  calc (4294967296 : Nat) = 2 ^ 32 := by norm_num
    _ ≤ 2 ^ i := Nat.pow_le_pow_right (by norm_num) hi

theorem and_mask_zero_of_lt {n : Nat} (h8 : n < 8) : n &&& 4294967288 = 0 := by
  apply Nat.zero_of_testBit_eq_false
  intro i
  rw [Nat.testBit_land]
  by_cases hi : i < 3
  · interval_cases i <;> simp +decide
  · have : n.testBit i = false :=
      Nat.testBit_eq_false_of_lt (lt_of_lt_of_le h8 (eight_le_two_pow (by omega)))
    simp [this]

theorem lt_of_and_mask_zero {n : Nat} (hn : n < 4294967296)
    (h : n &&& 4294967288 = 0) : n < 8 := by
  have hbits : ∀ i, 3 ≤ i → n.testBit i = false := by
    intro i hi
    by_cases hi32 : i < 32
    · have hz := congrArg (fun m => m.testBit i) h
      simp only [Nat.testBit_land, Nat.zero_testBit] at hz
      have hm : (4294967288 : Nat).testBit i = true := by
        interval_cases i <;> decide
      simpa [hm] using hz
    · exact Nat.testBit_eq_false_of_lt
        (lt_of_lt_of_le hn (u32_le_two_pow (by omega)))
  have heq : n = n &&& 7 := by
    apply Nat.eq_of_testBit_eq
    intro i
    rw [Nat.testBit_land]
    by_cases hi : i < 3
    · interval_cases i <;> simp +decide
    · simp [hbits i (by omega)]
  calc n = n &&& 7 := heq
    _ ≤ 7 := Nat.and_le_right
    _ < 8 := by norm_num

theorem and7_eq_iff_lt {n : Nat} : n &&& DeviceTypeFlags.allMask = n ↔ n < 8 := by
  constructor
  · intro h
    have h7 : n ≤ 7 := h ▸ Nat.and_le_right
    omega
  · intro h8
    apply Nat.eq_of_testBit_eq
    intro i
    rw [Nat.testBit_land]
    by_cases hi : i < 3
    · interval_cases i <;> simp +decide [DeviceTypeFlags.allMask]
    · have : n.testBit i = false :=
        Nat.testBit_eq_false_of_lt (lt_of_lt_of_le h8 (eight_le_two_pow (by omega)))
      simp [this]

theorem fromBits_testBit_bits {n : Nat} (h8 : n < 8) :
    (DeviceTypeFlags.mk (n.testBit 0) (n.testBit 1) (n.testBit 2)).bits = n := by
  interval_cases n <;> decide

/-- C1 (counterexample): on a fresh session on which neither
`create_session` nor `select_devices` was ever issued, `start` is NOT
rejected locally with a `StateError`: it succeeds and its call is
forwarded to the broker (member `Start` is issued); likewise
`select_devices` before any `create_session` succeeds and is
forwarded. -/
theorem start_before_select_devices_not_rejected_counterexample :
    ((RemoteDesktopProxy.new.start sessionA windowA StartRemoteOptions.default) envA).1 =
      Except.ok ⟨"/req/2"⟩ ∧
    ((RemoteDesktopProxy.new.start sessionA windowA StartRemoteOptions.default) envA).1 ≠
      Except.error Error.StateError ∧
    callMembers ((RemoteDesktopProxy.new.start sessionA windowA
        StartRemoteOptions.default) envA).2 = ["Start"] ∧
    ((RemoteDesktopProxy.new.select_devices sessionA
        SelectDevicesOptions.default) envA).1 = Except.ok ⟨"/req/1"⟩ ∧
    callMembers ((RemoteDesktopProxy.new.select_devices sessionA
        SelectDevicesOptions.default) envA).2 = ["SelectDevices"] := by
  refine ⟨rfl, ?_, rfl, rfl, rfl⟩
  intro h
  rw [show ((RemoteDesktopProxy.new.start sessionA windowA
      StartRemoteOptions.default) envA).1 = Except.ok ⟨"/req/2"⟩ from rfl] at h
  exact Except.noConfusion h

/-- C1 (amended): the proxy performs no local session-state check:
`select_devices` and `start` always forward their call to the broker
(exactly one call event, with the member `SelectDevices` resp. `Start`),
whatever the session's history, and their outcome is exactly the
broker's reply to that call fed through the object-path decode — never a
locally generated `StateError`. -/
theorem select_devices_start_always_forwarded_no_local_state_check
    (p : RemoteDesktopProxy) (s : SessionProxy) (opts : SelectDevicesOptions)
    (w : WindowIdentifier) (sopts : StartRemoteOptions) (env : Env) :
    callMembers ((p.select_devices s opts) env).2 = ["SelectDevices"] ∧
    callMembers ((p.start s w sopts) env).2 = ["Start"] ∧
    ((p.select_devices s opts) env).1 =
      (env.call p.inner "SelectDevices"
          [WireValue.objPath s.path, WireValue.dict opts.serialize]).bind
        (fun body => (bodyObjectPath body).map fun path => ⟨path⟩) ∧
    ((p.start s w sopts) env).1 =
      (env.call p.inner "Start"
          [WireValue.objPath s.path, WireValue.str w.val,
            WireValue.dict sopts.serialize]).bind
        (fun body => (bodyObjectPath body).map fun path => ⟨path⟩) := by
  refine ⟨?_, ?_, ?_, ?_⟩
  · cases h : env.call p.inner "SelectDevices"
        [WireValue.objPath s.path, WireValue.dict opts.serialize] <;>
      simp [RemoteDesktopProxy.select_devices, DBusM.run_bind, callMethod, h,
        DBusM.lift, RequestProxy.new, DBusM.pureM, callMembers, Event.member] <;>
      cases bodyObjectPath ‹List WireValue› <;> simp [callMembers, Event.member]
  · cases h : env.call p.inner "Start"
        [WireValue.objPath s.path, WireValue.str w.val,
          WireValue.dict sopts.serialize] <;>
      simp [RemoteDesktopProxy.start, DBusM.run_bind, callMethod, h,
        DBusM.lift, RequestProxy.new, DBusM.pureM, callMembers, Event.member] <;>
      cases bodyObjectPath ‹List WireValue› <;> simp [callMembers, Event.member]
  · cases h : env.call p.inner "SelectDevices"
        [WireValue.objPath s.path, WireValue.dict opts.serialize] <;>
      simp [RemoteDesktopProxy.select_devices, DBusM.run_bind, callMethod, h,
        DBusM.lift, RequestProxy.new, DBusM.pureM, Except.bind] <;>
      cases bodyObjectPath ‹List WireValue› <;> simp [Except.map]
  · cases h : env.call p.inner "Start"
        [WireValue.objPath s.path, WireValue.str w.val,
          WireValue.dict sopts.serialize] <;>
      simp [RemoteDesktopProxy.start, DBusM.run_bind, callMethod, h,
        DBusM.lift, RequestProxy.new, DBusM.pureM, Except.bind] <;>
      cases bodyObjectPath ‹List WireValue› <;> simp [Except.map]

/-- C2 (counterexample): running the spec's own scenario — `start`
acknowledged with granted set `{Pointer}` (keyboard NOT granted) — and
then calling `notify_keyboard_keycode` does not fail with a
`StateError`: the call succeeds and is forwarded to the broker, exactly
like `notify_pointer_button`. -/
theorem notify_keyboard_without_grant_succeeds_counterexample :
    (scenarioGrantedPointer envA).1 =
      Except.ok (⟨⟨false, true, false⟩⟩, (), ()) ∧
    callMembers (scenarioGrantedPointer envA).2 =
      ["Start", "NotifyKeyboardKeycode", "NotifyPointerButton"] ∧
    (RemoteDesktopProxy.new.notify_keyboard_keycode sessionA [] 13
        KeyState.Pressed envA).1 ≠ Except.error Error.StateError := by
  refine ⟨rfl, rfl, ?_⟩
  intro h
  rw [show (RemoteDesktopProxy.new.notify_keyboard_keycode sessionA [] 13
      KeyState.Pressed envA).1 = Except.ok () from rfl] at h
  exact Except.noConfusion h

/-- C2 (amended): this layer performs no granted-set check: every
`notify_*` call is forwarded to the broker unconditionally (exactly one
call event with its member name), and its outcome is exactly the
broker's reply to that call — `notify_keyboard_keycode` behaves no
differently from `notify_pointer_button`, whatever was granted. -/
theorem notify_operations_no_local_grant_check (p : RemoteDesktopProxy)
    (s : SessionProxy) (opts : Dict) (keycode button : Int)
    (st st2 : KeyState) (env : Env) :
    callMembers ((p.notify_keyboard_keycode s opts keycode st) env).2 =
      ["NotifyKeyboardKeycode"] ∧
    callMembers ((p.notify_pointer_button s opts button st2) env).2 =
      ["NotifyPointerButton"] ∧
    ((p.notify_keyboard_keycode s opts keycode st) env).1 =
      (env.call p.inner "NotifyKeyboardKeycode"
          [WireValue.objPath s.path, WireValue.dict opts,
            WireValue.i32 keycode, WireValue.u32 st.repr32]).bind bodyUnit ∧
    ((p.notify_pointer_button s opts button st2) env).1 =
      (env.call p.inner "NotifyPointerButton"
          [WireValue.objPath s.path, WireValue.dict opts,
            WireValue.i32 button, WireValue.u32 st2.repr32]).bind bodyUnit := by
  refine ⟨?_, ?_, ?_, ?_⟩
  · cases h : env.call p.inner "NotifyKeyboardKeycode"
        [WireValue.objPath s.path, WireValue.dict opts,
          WireValue.i32 keycode, WireValue.u32 st.repr32] <;>
      simp [RemoteDesktopProxy.notify_keyboard_keycode, DBusM.run_bind, callMethod,
        h, DBusM.lift, callMembers, Event.member]
  · cases h : env.call p.inner "NotifyPointerButton"
        [WireValue.objPath s.path, WireValue.dict opts,
          WireValue.i32 button, WireValue.u32 st2.repr32] <;>
      simp [RemoteDesktopProxy.notify_pointer_button, DBusM.run_bind, callMethod,
        h, DBusM.lift, callMembers, Event.member]
  · cases h : env.call p.inner "NotifyKeyboardKeycode"
        [WireValue.objPath s.path, WireValue.dict opts,
          WireValue.i32 keycode, WireValue.u32 st.repr32] <;>
      simp [RemoteDesktopProxy.notify_keyboard_keycode, DBusM.run_bind, callMethod,
        h, DBusM.lift, Except.bind]
  · cases h : env.call p.inner "NotifyPointerButton"
        [WireValue.objPath s.path, WireValue.dict opts,
          WireValue.i32 button, WireValue.u32 st2.repr32] <;>
      simp [RemoteDesktopProxy.notify_pointer_button, DBusM.run_bind, callMethod,
        h, DBusM.lift, Except.bind]

/-- C3: decoding the granted device set carried by the response to
`start` succeeds exactly when the `u32` value is a subset of the
`DeviceType` bit-mask `{1, 2, 4}` (`value &&& 7 = value`), and on
success the decoded flag set's bits are exactly the wire value — never
truncated. -/
theorem start_granted_devices_decode (n : Nat) (hn : n < 4294967296) :
    ((SelectedDevices.deserialize [("devices", WireValue.u32 n)]).isSome ↔
      n &&& DeviceTypeFlags.allMask = n) ∧
    (∀ s : SelectedDevices,
      SelectedDevices.deserialize [("devices", WireValue.u32 n)] = some s →
      s.devices.bits = n) := by
  have hdes : SelectedDevices.deserialize [("devices", WireValue.u32 n)] =
      (DeviceTypeFlags.fromBits n).map fun f => ⟨f⟩ := by
    simp [SelectedDevices.deserialize, List.lookup, decodeDeviceTypeFlags, decodeU32, hn]
  rw [hdes]
  constructor
  · rw [DeviceTypeFlags.fromBits, mask_const, and7_eq_iff_lt]
    by_cases h : n &&& 4294967288 = 0
    · simp [h, lt_of_and_mask_zero hn h]
    · simp [h]
      exact Nat.le_of_not_lt fun h8 => h (and_mask_zero_of_lt h8)
  · intro s hs
    rw [DeviceTypeFlags.fromBits, mask_const] at hs
    by_cases h : n &&& 4294967288 = 0
    · rw [if_pos h] at hs
      have h8 := lt_of_and_mask_zero hn h
      simp only [Option.map_some'] at hs
      cases hs
      simpa using fromBits_testBit_bits h8
    · rw [if_neg h] at hs
      exact absurd hs (by simp)

/-- Witness for C3: at the in-range value 5 = Keyboard|Touchscreen the
decode succeeds, and at the decoded record the bits are 5. -/
theorem start_granted_devices_decode_witness :
    (5 : Nat) < 4294967296 ∧
    ((SelectedDevices.deserialize [("devices", WireValue.u32 5)]).isSome ↔
      (5 : Nat) &&& DeviceTypeFlags.allMask = 5) ∧
    (⟨⟨true, false, true⟩⟩ : SelectedDevices).devices.bits = 5 :=
  ⟨by norm_num, (start_granted_devices_decode 5 (by norm_num)).1,
    (start_granted_devices_decode 5 (by norm_num)).2 ⟨⟨true, false, true⟩⟩ rfl⟩

/-- C4: for every session and every `(dx, dy)`, the relative
pointer-motion operation `notify_pointer_motion` issues its call under
the member name `NotifyPointerMotionAbsolute` — the very member
`notify_pointer_motion_absolute` uses — not under a distinct
relative-motion member. -/
theorem notify_pointer_motion_reuses_absolute_member_name
    (p : RemoteDesktopProxy) (s : SessionProxy) (opts : Dict)
    (dx dy : Double) (stream : Nat) (x y : Double) (env : Env) :
    callMembers ((p.notify_pointer_motion s opts dx dy) env).2 =
      ["NotifyPointerMotionAbsolute"] ∧
    callMembers ((p.notify_pointer_motion_absolute s opts stream x y) env).2 =
      ["NotifyPointerMotionAbsolute"] := by
  constructor
  · cases h : env.call p.inner "NotifyPointerMotionAbsolute"
      [WireValue.objPath s.path, WireValue.dict opts,
        WireValue.f64 dx, WireValue.f64 dy] <;>
      simp [RemoteDesktopProxy.notify_pointer_motion, DBusM.run_bind, callMethod, h,
        DBusM.lift, callMembers, Event.member]
  · cases h : env.call p.inner "NotifyPointerMotionAbsolute"
      [WireValue.objPath s.path, WireValue.dict opts,
        WireValue.u32 stream, WireValue.f64 x, WireValue.f64 y] <;>
      simp [RemoteDesktopProxy.notify_pointer_motion_absolute, DBusM.run_bind,
        callMethod, h, DBusM.lift, callMembers, Event.member]

/-- C5: `create_session` issues `CreateSession`, takes the synchronously
returned response-object path, awaits that response for the record
carrying the session's stable identifier, and returns a handle bound to
exactly that identifier; a transport failure of the call propagates, a
non-success status surfaces as the broker error, an undecodable payload
surfaces as a protocol error, and a failed response delivery
propagates — never a handle. -/
theorem create_session_correlates_response_and_binds_handle
    (p : RemoteDesktopProxy) (o : CreateRemoteOptions) (env : Env) :
    (∀ (path : String) (payload : Dict) (cs : CreateSession),
      env.call p.inner "CreateSession" [WireValue.dict o.serialize] =
        Except.ok [WireValue.objPath path] →
      env.response path = Except.ok (0, payload) →
      CreateSession.deserialize payload = some cs →
      (p.create_session o) env =
        (Except.ok ⟨cs.session_handle⟩,
          [Event.call "CreateSession" [WireValue.dict o.serialize],
            Event.receive path])) ∧
    (∀ e : Error,
      env.call p.inner "CreateSession" [WireValue.dict o.serialize] = Except.error e →
      ((p.create_session o) env).1 = Except.error e) ∧
    (∀ (path : String) (status : Nat) (payload : Dict),
      env.call p.inner "CreateSession" [WireValue.dict o.serialize] =
        Except.ok [WireValue.objPath path] →
      env.response path = Except.ok (status, payload) → status ≠ 0 →
      ((p.create_session o) env).1 = Except.error (Error.BrokerError status)) ∧
    (∀ (path : String) (payload : Dict),
      env.call p.inner "CreateSession" [WireValue.dict o.serialize] =
        Except.ok [WireValue.objPath path] →
      env.response path = Except.ok (0, payload) →
      CreateSession.deserialize payload = none →
      ((p.create_session o) env).1 = Except.error Error.ProtocolError) ∧
    (∀ (path : String) (e : Error),
      env.call p.inner "CreateSession" [WireValue.dict o.serialize] =
        Except.ok [WireValue.objPath path] →
      env.response path = Except.error e →
      ((p.create_session o) env).1 = Except.error e) := by
  refine ⟨?_, ?_, ?_, ?_, ?_⟩
  · intro path payload cs h1 h2 h3
    simp [RemoteDesktopProxy.create_session, DBusM.run_bind, callMethod, h1,
      DBusM.lift, bodyObjectPath, RequestProxy.new, DBusM.pureM,
      RequestProxy.receive_response, h2, h3, SessionProxy.new]
  · intro e h1
    simp [RemoteDesktopProxy.create_session, DBusM.run_bind, callMethod, h1]
  · intro path status payload h1 h2 h3
    have hb : (status == 0) = false := by simpa using h3
    simp [RemoteDesktopProxy.create_session, DBusM.run_bind, callMethod, h1,
      DBusM.lift, bodyObjectPath, RequestProxy.new, DBusM.pureM,
      RequestProxy.receive_response, h2, hb]
  · intro path payload h1 h2 h3
    simp [RemoteDesktopProxy.create_session, DBusM.run_bind, callMethod, h1,
      DBusM.lift, bodyObjectPath, RequestProxy.new, DBusM.pureM,
      RequestProxy.receive_response, h2, h3]
  · intro path e h1 h2
    simp [RemoteDesktopProxy.create_session, DBusM.run_bind, callMethod, h1,
      DBusM.lift, bodyObjectPath, RequestProxy.new, DBusM.pureM,
      RequestProxy.receive_response, h2]

/-- Witness for C5: concrete brokers exercising all five branches —
success binds the handle to `/session/s1`; transport, broker,
protocol and response-delivery failures surface as such. -/
theorem create_session_correlates_response_and_binds_handle_witness :
    (RemoteDesktopProxy.new.create_session CreateRemoteOptions.default envA).1 =
      Except.ok ⟨"/session/s1"⟩ ∧
    (RemoteDesktopProxy.new.create_session CreateRemoteOptions.default envCallFail).1 =
      Except.error Error.TransportError ∧
    (RemoteDesktopProxy.new.create_session CreateRemoteOptions.default envBrokerCancel).1 =
      Except.error (Error.BrokerError 1) ∧
    (RemoteDesktopProxy.new.create_session CreateRemoteOptions.default envBadPayload).1 =
      Except.error Error.ProtocolError ∧
    (RemoteDesktopProxy.new.create_session CreateRemoteOptions.default envRespFail).1 =
      Except.error Error.TransportError := by
  have h := create_session_correlates_response_and_binds_handle
    RemoteDesktopProxy.new CreateRemoteOptions.default
  refine ⟨?_, ?_, ?_, ?_, ?_⟩
  · exact congrArg Prod.fst
      ((h envA).1 "/req/0" [("session_handle", WireValue.objPath "/session/s1")]
        ⟨"/session/s1"⟩ rfl rfl rfl)
  · exact (h envCallFail).2.1 Error.TransportError rfl
  · exact (h envBrokerCancel).2.2.1 "/req/0" 1 [] rfl rfl (by decide)
  · exact (h envBadPayload).2.2.2.1 "/req/0" [] rfl rfl rfl
  · exact (h envRespFail).2.2.2.2 "/req/0" Error.TransportError rfl rfl

/-- C6: serializing a `SelectDevicesOptions` whose `types` field is
`Keyboard|Pointer` and deserializing it back yields exactly the same
record — the flag combination survives the round trip with nothing
added or lost. -/
theorem select_devices_options_types_roundtrip :
    SelectDevicesOptions.deserialize
        (SelectDevicesOptions.serialize
          (SelectDevicesOptions.default.set_types
            (DeviceTypeFlags.union (.ofDevice .Keyboard) (.ofDevice .Pointer)))) =
      some (SelectDevicesOptions.default.set_types
        (DeviceTypeFlags.union (.ofDevice .Keyboard) (.ofDevice .Pointer))) := rfl

/-- C7: the wire encodings are exactly `Keyboard=1`, `Pointer=2`,
`Touchscreen=4` (combined as bit flags), `Pressed=0`, `Released=1`,
`Vertical=0`, `Horizontal=1`, all within unsigned 32-bit range. -/
theorem wire_encodings_exact :
    (KeyState.repr32 .Pressed = 0 ∧ KeyState.repr32 .Released = 1) ∧
    (DeviceType.repr32 .Keyboard = 1 ∧ DeviceType.repr32 .Pointer = 2 ∧
      DeviceType.repr32 .Touchscreen = 4) ∧
    (Axis.repr32 .Vertical = 0 ∧ Axis.repr32 .Horizontal = 1) ∧
    (∀ k : KeyState, k.repr32 < 4294967296) ∧
    (∀ d : DeviceType, d.repr32 < 4294967296) ∧
    (∀ a : Axis, a.repr32 < 4294967296) ∧
    (∀ f : DeviceTypeFlags,
      f.bits = (cond f.keyboard (DeviceType.repr32 .Keyboard) 0) |||
               (cond f.pointer (DeviceType.repr32 .Pointer) 0) |||
               (cond f.touchscreen (DeviceType.repr32 .Touchscreen) 0) ∧
      f.bits < 4294967296) := by
  refine ⟨⟨rfl, rfl⟩, ⟨rfl, rfl, rfl⟩, ⟨rfl, rfl⟩, ?_, ?_, ?_, ?_⟩
  · intro k; cases k <;> decide
  · intro d; cases d <;> decide
  · intro a; cases a <;> decide
  · rintro ⟨k, p, t⟩; cases k <;> cases p <;> cases t <;> exact ⟨rfl, by decide⟩

/-- C8: for each option record, the default has every field absent; each
builder setter sets exactly the named field and leaves the others
unchanged; and a field appears in the serialized dict exactly when it is
set (an absent field is omitted, not serialized as a default). -/
theorem option_records_defaults_builders_serialization :
    (CreateRemoteOptions.default.handle_token = none ∧
     CreateRemoteOptions.default.session_handle_token = none ∧
     SelectDevicesOptions.default.handle_token = none ∧
     SelectDevicesOptions.default.types = none ∧
     StartRemoteOptions.default.handle_token = none) ∧
    (∀ (o : CreateRemoteOptions) (t : HandleToken),
      (o.set_handle_token t).handle_token = some t ∧
      (o.set_handle_token t).session_handle_token = o.session_handle_token ∧
      (o.set_session_handle_token t).session_handle_token = some t ∧
      (o.set_session_handle_token t).handle_token = o.handle_token) ∧
    (∀ (o : SelectDevicesOptions) (t : HandleToken) (ts : DeviceTypeFlags),
      (o.set_handle_token t).handle_token = some t ∧
      (o.set_handle_token t).types = o.types ∧
      (o.set_types ts).types = some ts ∧
      (o.set_types ts).handle_token = o.handle_token) ∧
    (∀ (o : StartRemoteOptions) (t : HandleToken),
      (o.set_handle_token t).handle_token = some t) ∧
    (∀ o : CreateRemoteOptions,
      o.serialize.lookup "handle_token" =
        o.handle_token.map (fun t => WireValue.str t.val) ∧
      o.serialize.lookup "session_handle_token" =
        o.session_handle_token.map (fun t => WireValue.str t.val)) ∧
    (∀ o : SelectDevicesOptions,
      o.serialize.lookup "handle_token" =
        o.handle_token.map (fun t => WireValue.str t.val) ∧
      o.serialize.lookup "types" = o.types.map (fun ts => WireValue.u32 ts.bits)) ∧
    (∀ o : StartRemoteOptions,
      o.serialize.lookup "handle_token" =
        o.handle_token.map (fun t => WireValue.str t.val)) := by
  refine ⟨⟨rfl, rfl, rfl, rfl, rfl⟩, ?_, ?_, ?_, ?_, ?_, ?_⟩
  · intro o t; exact ⟨rfl, rfl, rfl, rfl⟩
  · intro o t ts; exact ⟨rfl, rfl, rfl, rfl⟩
  · intro o t; exact rfl
  · rintro ⟨ht, st⟩; cases ht <;> cases st <;> exact ⟨rfl, rfl⟩
  · rintro ⟨ht, ts⟩; cases ht <;> cases ts <;> exact ⟨rfl, rfl⟩
  · rintro ⟨ht⟩; cases ht <;> exact rfl

/-- C9: `select_devices` and `start`, when the broker's immediate reply
carries the response-object path, return a pending-request handle bound
to exactly that path, and neither awaits the asynchronous completion —
their traces contain no response-receive action. -/
theorem select_devices_start_return_pending_request (p : RemoteDesktopProxy)
    (s : SessionProxy) (opts : SelectDevicesOptions) (w : WindowIdentifier)
    (sopts : StartRemoteOptions) (env : Env) :
    (∀ path : String,
      env.call p.inner "SelectDevices"
          [WireValue.objPath s.path, WireValue.dict opts.serialize] =
        Except.ok [WireValue.objPath path] →
      (p.select_devices s opts) env =
        (Except.ok ⟨path⟩,
          [Event.call "SelectDevices"
            [WireValue.objPath s.path, WireValue.dict opts.serialize]])) ∧
    (∀ path : String,
      env.call p.inner "Start"
          [WireValue.objPath s.path, WireValue.str w.val,
            WireValue.dict sopts.serialize] =
        Except.ok [WireValue.objPath path] →
      (p.start s w sopts) env =
        (Except.ok ⟨path⟩,
          [Event.call "Start"
            [WireValue.objPath s.path, WireValue.str w.val,
              WireValue.dict sopts.serialize]])) ∧
    receives ((p.select_devices s opts) env).2 = false ∧
    receives ((p.start s w sopts) env).2 = false := by
  refine ⟨?_, ?_, ?_, ?_⟩
  · intro path h1
    simp [RemoteDesktopProxy.select_devices, DBusM.run_bind, callMethod, h1,
      DBusM.lift, bodyObjectPath, RequestProxy.new, DBusM.pureM]
  · intro path h1
    simp [RemoteDesktopProxy.start, DBusM.run_bind, callMethod, h1,
      DBusM.lift, bodyObjectPath, RequestProxy.new, DBusM.pureM]
  · cases h : env.call p.inner "SelectDevices"
        [WireValue.objPath s.path, WireValue.dict opts.serialize] <;>
      simp [RemoteDesktopProxy.select_devices, DBusM.run_bind, callMethod, h,
        DBusM.lift, RequestProxy.new, DBusM.pureM, receives] <;>
      cases bodyObjectPath ‹List WireValue› <;> simp [receives]
  · cases h : env.call p.inner "Start"
        [WireValue.objPath s.path, WireValue.str w.val,
          WireValue.dict sopts.serialize] <;>
      simp [RemoteDesktopProxy.start, DBusM.run_bind, callMethod, h,
        DBusM.lift, RequestProxy.new, DBusM.pureM, receives] <;>
      cases bodyObjectPath ‹List WireValue› <;> simp [receives]

/-- Witness for C9: under the concrete broker, `select_devices` returns
the pending request bound to `/req/1` and `start` the one bound to
`/req/2`. -/
theorem select_devices_start_return_pending_request_witness :
    ((RemoteDesktopProxy.new.select_devices sessionA
        SelectDevicesOptions.default) envA).1 = Except.ok ⟨"/req/1"⟩ ∧
    ((RemoteDesktopProxy.new.start sessionA windowA
        StartRemoteOptions.default) envA).1 = Except.ok ⟨"/req/2"⟩ := by
  have h := select_devices_start_return_pending_request RemoteDesktopProxy.new
    sessionA SelectDevicesOptions.default windowA StartRemoteOptions.default envA
  exact ⟨congrArg Prod.fst (h.1 "/req/1" rfl), congrArg Prod.fst (h.2.1 "/req/2" rfl)⟩

/-- C10: the proxy holds no mutable client-side state: the
`RemoteDesktopProxy` record is determined by its single inner zbus-proxy
field (so no lifecycle state is stored anywhere in it), any two proxies
with the same inner proxy behave identically on every operation, and
running the same operation twice in sequence yields identical results —
no hidden mutation is observable. -/
theorem proxy_holds_no_mutable_state :
    (∀ p q : RemoteDesktopProxy, p.inner = q.inner → p = q) ∧
    (∀ (p q : RemoteDesktopProxy) (c : ProxyCall), p.inner = q.inner →
      p.dispatch c = q.dispatch c) ∧
    (∀ (p : RemoteDesktopProxy) (c : ProxyCall) (env : Env)
        (a b : CallResult) (t : List Event),
      (DBusM.bindM (p.dispatch c) fun x =>
        DBusM.bindM (p.dispatch c) fun y => DBusM.pureM (x, y)) env =
          (Except.ok (a, b), t) →
      a = b) := by
  refine ⟨?_, ?_, ?_⟩
  · intro p q h
    cases p; cases q; cases h; rfl
  · intro p q c h
    have hpq : p = q := by cases p; cases q; cases h; rfl
    rw [hpq]
  · intro p c env a b t h
    cases hd : (p.dispatch c) env with
    | mk r tr =>
      cases r with
      | error e =>
        simp [DBusM.bindM, hd] at h
      | ok a0 =>
        simp [DBusM.bindM, hd, DBusM.pureM] at h
        obtain ⟨⟨h1, h2⟩, -⟩ := h
        rw [← h1, ← h2]

/-- Witness for C10: the theorem applied at the concrete proxy, the
`Start` operation and the concrete broker. -/
theorem proxy_holds_no_mutable_state_witness :
    RemoteDesktopProxy.new = RemoteDesktopProxy.new ∧
    RemoteDesktopProxy.new.dispatch ProxyCall.versionCall =
      RemoteDesktopProxy.new.dispatch ProxyCall.versionCall ∧
    CallResult.request ⟨"/req/2"⟩ = CallResult.request ⟨"/req/2"⟩ :=
  ⟨proxy_holds_no_mutable_state.1 RemoteDesktopProxy.new RemoteDesktopProxy.new rfl,
   proxy_holds_no_mutable_state.2.1 RemoteDesktopProxy.new RemoteDesktopProxy.new
     ProxyCall.versionCall rfl,
   proxy_holds_no_mutable_state.2.2 RemoteDesktopProxy.new
     (ProxyCall.startSession sessionA windowA StartRemoteOptions.default) envA
     (CallResult.request ⟨"/req/2"⟩) (CallResult.request ⟨"/req/2"⟩) _ rfl⟩

end RemoteDesktop
